import Mathlib

/-!
Verification of the OMR sheet processor backend (`backend/main.py`,
`backend/gemini_service.py`) against its natural-language specification.

The Python code is shallowly embedded: dictionaries become association
lists over `String` (JSON object keys and values are strings on every
path exercised here), Python string operations (`strip`, `upper`,
`find`, slicing, truthiness) are modelled character-exactly over
`List Char` / `String`, floats used for the percentage are modelled by
exact rationals, and fallible code returns explicit result values.
-/

namespace OMRSpec

/-! ### Python string primitives -/

/-- The backtick character, written by code point to keep the source free of
raw backticks. -/
def btick : Char := Char.ofNat 96

/-- Python `str.strip()` default whitespace (ASCII part: space, tab, newline,
carriage return, vertical tab, form feed). -/
def isPySpace (c : Char) : Bool :=
  c = ' ' || c = '\t' || c = '\n' || c = '\r' || c = Char.ofNat 11 || c = Char.ofNat 12

/-- Python `s.strip()` on a character list. -/
def pyStripL (s : List Char) : List Char :=
  ((s.dropWhile isPySpace).reverse.dropWhile isPySpace).reverse

/-- Python `s.strip()` on a `String`. -/
def pyStripS (s : String) : String := String.mk (pyStripL s.data)

/-- Python `s.upper()` (ASCII case mapping, which is all the option labels use). -/
def pyUpper (s : String) : String := String.mk (s.data.map Char.toUpper)

/-- Python `s.strip().upper()`, the normalization applied to both the student
answer and the expected answer in every scoring loop of `main.py`. -/
def trimUpper (s : String) : String := pyUpper (pyStripS s)

/-! ### Scoring (`main.py`)

A JSON dictionary with string keys and string values is an association
list; `len(d.keys())` is its length (keys are unique in a dict).
-/

/-- Association-list model of a JSON string-to-string dictionary. -/
abbrev SDict := List (String × String)

/-- `len(ak.keys())`: the answer key's cardinality. -/
def keyCard (ak : SDict) : Nat := ak.length

/-- Python `str(x)` applied to the result of `ak.get(q)`: a present string
value is unchanged, an absent key gives `None`, rendered `"None"`. -/
def strOfLookup : Option String → String
  | some s => s
  | none => "None"

/-- The correctness test of `main.py` lines 431-436 / 525-530 / 631-636:
`student_answer and str(student_answer).strip().upper() ==
str(correct_answer).strip().upper()` where
`correct_answer = ak.get(str(question_num))`. -/
def isCorrectAnswer (ak : SDict) (q a : String) : Bool :=
  (a != "") && (trimUpper a == trimUpper (strOfLookup (ak.lookup q)))

/-- The scoring loop of the answer-key based paths
(`process_multiple_omr_crops`, `process_cropped_omr_by_answer_key`,
`process_cropped_by_answer_key`): iterate the responses dict,
incrementing `correct_count` or `wrong_count`. Returns
`(correct_count, wrong_count)`. -/
def scoreByKey (responses ak : SDict) : Nat × Nat :=
  responses.foldl
    (fun cw qa => if isCorrectAnswer ak qa.1 qa.2 then (cw.1 + 1, cw.2) else (cw.1, cw.2 + 1))
    (0, 0)

/-- The scoring loop of `upload_omr_sheet` (lines 133-140): a three-way
classification with an unanswered bucket:
`if not student_answer or student_answer.strip() == ""` → unanswered,
`elif student_answer.strip().upper() == str(correct_answer).strip().upper()`
→ correct, else wrong. Returns `(correct, wrong, unanswered)`. -/
def uploadCounts (responses ak : SDict) : Nat × Nat × Nat :=
  responses.foldl
    (fun acc qa =>
      if qa.2 = "" || pyStripS qa.2 = "" then (acc.1, acc.2.1, acc.2.2 + 1)
      else if trimUpper qa.2 = trimUpper (strOfLookup (ak.lookup qa.1)) then
        (acc.1 + 1, acc.2.1, acc.2.2)
      else (acc.1, acc.2.1 + 1, acc.2.2))
    (0, 0, 0)

/-! ### Percentage formatting

`percentage = (correct_count / total_questions * 100) if total_questions > 0
else 0` followed by `f"{percentage:.2f}%"`. The float value is modelled by
the exact rational `correct / total * 100`; `.2f` rounds to two decimals
(round half to even, as float formatting does) and always prints exactly two
fractional digits. The rational `correct / total * 100` in units of
hundredths is `correct * 10000 / total`, rounded half-to-even below using
exact natural-number arithmetic.
-/

/-- `correct / total * 100` in hundredths, rounded half to even
(requires `0 < total`). -/
def hundredthsOf (correct total : Nat) : Nat :=
  let n := correct * 10000
  let q := n / total
  let r := n % total
  if 2 * r < total then q
  else if total < 2 * r then q + 1
  else if q % 2 = 0 then q else q + 1

/-- Print a hundredths count as a two-decimal string with a trailing `%`,
as `f"{p:.2f}%"` does. -/
def fmt2 (h : Nat) : String :=
  toString (h / 100) ++ "." ++ (if h % 100 < 10 then "0" else "") ++ toString (h % 100) ++ "%"

/-- The percentage string computed on every scoring path of `main.py`. -/
def pctString (correct total : Nat) : String :=
  fmt2 (if 0 < total then hundredthsOf correct total else 0)

/-! ### The per-path scored record (`ScoredSheet`) -/

/-- The scoring-relevant fields of the persisted `OMRSheet` record. -/
structure ScoredSheet where
  correct_count : Nat
  wrong_count : Nat
  total_questions : Nat
  percentage : String
deriving DecidableEq, Repr

/-- `ScoredSheet` produced by the answer-key based paths (cropped and
multi-region): `total_questions = len(ak.keys())`. -/
def sheetByKey (responses ak : SDict) : ScoredSheet :=
  { correct_count := (scoreByKey responses ak).1
    wrong_count := (scoreByKey responses ak).2
    total_questions := keyCard ak
    percentage := pctString (scoreByKey responses ak).1 (keyCard ak) }

/-- `ScoredSheet` produced by `upload_omr_sheet`:
`total_questions = template.total_questions`, a caller-stored field that is
independent of the answer key. Second component: the unanswered count. -/
def sheetUpload (responses ak : SDict) (templateTotal : Nat) : ScoredSheet × Nat :=
  ({ correct_count := (uploadCounts responses ak).1
     wrong_count := (uploadCounts responses ak).2.1
     total_questions := templateTotal
     percentage := pctString (uploadCounts responses ak).1 templateTotal },
   (uploadCounts responses ak).2.2)

/-! ### Identity resolution (`main.py` lines 440-454 and 534-559)

Each field is resolved by
`if v and isinstance(v, str) and v.strip(): final = v.strip()` over the
explicit query parameter first, then (on the path that extracts identity,
`process_cropped_omr_by_answer_key`) the same test over the AI-extracted
value, else `None`. An absent or non-string value is `none`.
-/

/-- One `if v and isinstance(v, str) and v.strip():` arm: returns the
stripped value when the original and its strip are both truthy. -/
def pickNonEmpty : Option String → Option String
  | none => none
  | some s => if s != "" && pyStripS s != "" then some (pyStripS s) else none

/-- Per-field resolution: explicit caller-supplied value first, then the
AI-extracted value, else `None`. On `process_multiple_omr_crops` the
extracted argument is always `none` (that path extracts no identity). -/
def resolveField (explicit extracted : Option String) : Option String :=
  match pickNonEmpty explicit with
  | some v => some v
  | none =>
    match pickNonEmpty extracted with
    | some v => some v
    | none => none

/-- The spec's §4.5 test: the value is present and non-empty after trimming
whitespace. -/
def nonEmptyAfterTrim : Option String → Bool
  | none => false
  | some s => pyStripS s != ""

/-- Modelled from the spec: the resolution rule as §4.5 words it, amended to
return the trimmed chosen value — explicit if non-empty after trim, else
extracted if non-empty after trim, else absent. -/
def resolveFieldSpec (explicit extracted : Option String) : Option String :=
  if nonEmptyAfterTrim explicit then explicit.map pyStripS
  else if nonEmptyAfterTrim extracted then extracted.map pyStripS
  else none

/-! ### Multi-region aggregation (`process_multiple_omr_crops`, lines 370-407)

The loop zips the five fixed question ranges with the five per-region
outcomes. A region's call to `process_omr_question_range` either raises
(caught by the `except` arm) or returns a dict that may carry an `"error"`
key; both failure shapes append `f"Questions {start_q}-{end_q}: {msg}"` and
merge nothing, while a success merges its `responses` entries into the
accumulator dict. `process_omr_question_range` itself is undefined in the
repository (see the import model below), so the aggregation loop is
verified over the abstract per-region outcomes it consumes.
-/

/-- A returned region dict: its `responses` mapping and the optional
`"error"` entry. -/
structure RegionResult where
  responses : SDict
  err : Option String
deriving DecidableEq, Repr

/-- Outcome of one `process_omr_question_range` call: a returned dict, or a
raised exception with message `str(e)`. -/
inductive RegionOutcome where
  | ok : RegionResult → RegionOutcome
  | exc : String → RegionOutcome
deriving DecidableEq, Repr

/-- The fixed `question_ranges` list (lines 371-377). -/
def questionRanges : List (Nat × Nat) := [(1, 10), (11, 20), (21, 30), (31, 40), (41, 50)]

/-- Python dict assignment `d[k] = v`: overwrite in place when the key is
present (insertion order kept), else append. -/
def dictSet (d : SDict) (k v : String) : SDict :=
  if (d.lookup k).isSome then d.map (fun kv => if kv.1 = k then (k, v) else kv)
  else d ++ [(k, v)]

/-- Merging one region's `responses` dict: `all_responses[q_num] = answer`
for each item in order. -/
def dictMergeInto (acc : SDict) (kvs : SDict) : SDict :=
  kvs.foldl (fun a kv => dictSet a kv.1 kv.2) acc

/-- `f"Questions {start_q}-{end_q}: {msg}"` -/
def fmtErr (s e : Nat) (msg : String) : String :=
  "Questions " ++ toString s ++ "-" ++ toString e ++ ": " ++ msg

/-- The error entry a region contributes, if any: the `"error"` value of a
returned dict, or the caught exception message. -/
def regionErrMsg : RegionOutcome → Option String
  | .ok r => r.err
  | .exc m => some m

/-- The formatted error-list entry of one `(range, outcome)` pair, if it
fails. -/
def regionErrEntry (p : (Nat × Nat) × RegionOutcome) : Option String :=
  (regionErrMsg p.2).map (fmtErr p.1.1 p.1.2)

/-- The aggregation loop of `process_multiple_omr_crops` (lines 386-407):
returns `(all_responses, all_errors)`. -/
def aggregateCrops (outcomes : List RegionOutcome) : SDict × List String :=
  (questionRanges.zip outcomes).foldl
    (fun acc p =>
      match p.2 with
      | .ok r =>
        match r.err with
        | some m => (acc.1, acc.2 ++ [fmtErr p.1.1 p.1.2 m])
        | none => (dictMergeInto acc.1 r.responses, acc.2)
      | .exc m => (acc.1, acc.2 ++ [fmtErr p.1.1 p.1.2 m]))
    ([], [])

/-! ### The import model (`main.py` lines 26-32, `gemini_service.py`)

`main.py` imports five names from `gemini_service`; the module defines
exactly four functions. The lists below are transcribed from the two files.
-/

/-- The functions `gemini_service.py` defines (its four `def` statements). -/
def geminiServiceDefs : List String :=
  ["process_omr_sheet", "create_answer_key_from_image",
   "extract_name_from_image", "process_omr_from_image_data"]

/-- The names `main.py` imports from `gemini_service` (lines 26-32). -/
def mainGeminiImports : List String :=
  ["process_omr_sheet", "create_answer_key_from_image",
   "extract_name_from_image", "process_omr_from_image_data",
   "process_omr_question_range"]

/-! ### Crop-box arithmetic (`_crop_bytes`, lines 272-285) -/

/-- Python `int()` truncation toward zero of a rational. -/
def pyInt (q : Rat) : Int := Int.tdiv q.num (q.den : Int)

/-- The pixel box of `_crop_bytes`: each coordinate is
`max(0, min(bound, int(coord * bound)))`. Returns
`(left, top, right, bottom)`. -/
def cropBox (width height : Nat) (x y w h : Rat) : Int × Int × Int × Int :=
  (max 0 (min (width : Int) (pyInt (x * (width : Rat)))),
   max 0 (min (height : Int) (pyInt (y * (height : Rat)))),
   max 0 (min (width : Int) (pyInt ((x + w) * (width : Rat)))),
   max 0 (min (height : Int) (pyInt ((y + h) * (height : Rat)))))

/-! ### Response text extraction (`gemini_service.py` lines 78-112)

`response_text = response.text.strip()`; a fenced block tagged `json` is
searched first, else a generic fence, else the whole text is parsed;
the selected substring is stripped and fed to `json.loads`. On
`JSONDecodeError`, `re.search(r'\x7b.*\x7d', response_text, re.DOTALL)` is
retried — on `response_text`, which by then holds the fence-selected
substring, not the original raw text.
-/

/-- First index at which `needle` occurs in the haystack
(Python `hay.find(needle)` without the `-1` encoding). -/
def firstIdx (needle : List Char) : List Char → Option Nat
  | [] => if needle.isPrefixOf ([] : List Char) then some 0 else none
  | c :: t =>
    if needle.isPrefixOf (c :: t) then some 0
    else (firstIdx needle t).map (fun i => i + 1)

/-- Python `hay.find(needle, start)`: absolute index, `-1` when absent. -/
def pyFind (hay needle : List Char) (start : Nat) : Int :=
  match firstIdx needle (hay.drop start) with
  | some i => ((start + i : Nat) : Int)
  | none => -1

/-- Python `needle in hay`. -/
def hasSub (hay needle : List Char) : Bool := (firstIdx needle hay).isSome

/-- Python slice `s[a:b]` with a nonnegative start and a possibly negative
end (the shapes the extraction code produces). -/
def pySliceNN (s : List Char) (a : Nat) (b : Int) : List Char :=
  let bi : Nat := if 0 ≤ b then min s.length b.toNat else ((s.length : Int) + b).toNat
  (s.take bi).drop a

/-- The characters of the tagged fence marker. -/
def fenceJson : List Char := [btick, btick, btick, 'j', 's', 'o', 'n']

/-- The characters of the generic fence marker. -/
def fenceMark : List Char := [btick, btick, btick]

/-- The fence-selection step: the value `response_text` holds when
`json.loads` is reached. -/
def selectPayload (text : List Char) : List Char :=
  if hasSub text fenceJson then
    let js : Nat := (pyFind text fenceJson 0 + 7).toNat
    let je : Int := pyFind text fenceMark js
    pyStripL (pySliceNN text js je)
  else if hasSub text fenceMark then
    let js : Nat := (pyFind text fenceMark 0 + 3).toNat
    let je : Int := pyFind text fenceMark js
    pyStripL (pySliceNN text js je)
  else text

/-! ### A model of `json.loads`

The payloads this service exchanges are JSON objects whose leaves are
strings, integers, booleans and nulls. `jsonParseL` parses exactly that
fragment with `json.loads`'s surface rules: optional whitespace
(space, tab, newline, carriage return) around tokens, double-quoted
strings with the single-character escapes, no trailing commas, no leading
zeros, and the whole input must be consumed.
-/

/-- JSON values (integer numerals; the service's payloads use no floats). -/
inductive JVal where
  | null : JVal
  | bool : Bool → JVal
  | num : Int → JVal
  | str : List Char → JVal
  | arr : List JVal → JVal
  | obj : List (List Char × JVal) → JVal
deriving BEq, Repr

/-- JSON token whitespace. -/
def jWs (c : Char) : Bool := c = ' ' || c = '\t' || c = '\n' || c = '\r'

/-- Decode one string escape character (the quote, backslash and slash map
to themselves; the letters map to their control characters). -/
def escChar (e : Char) : Option Char :=
  if e = '"' ∨ e = '\\' ∨ e = '/' then some e
  else if e = 'n' then some '\n'
  else if e = 't' then some '\t'
  else if e = 'r' then some '\r'
  else if e = 'b' then some (Char.ofNat 8)
  else if e = 'f' then some (Char.ofNat 12)
  else none

/-- Consume a run of digits, most significant first. -/
def takeDigits (acc : Nat) : List Char → Nat × List Char
  | [] => (acc, [])
  | c :: r => if c.isDigit then takeDigits (acc * 10 + (c.toNat - 48)) r else (acc, c :: r)

/-- Parse a JSON natural numeral (rejecting leading zeros). -/
def parseNumeral : List Char → Option (Nat × List Char)
  | [] => none
  | c :: r =>
    if c.isDigit then
      if c = '0' then
        match r with
        | d :: _ => if d.isDigit then none else some (0, r)
        | [] => some (0, r)
      else some (takeDigits (c.toNat - 48) r)
    else none

mutual

/-- Parse one JSON value, returning it with the unconsumed remainder. -/
def parseVal : Nat → List Char → Option (JVal × List Char)
  | 0, _ => none
  | Nat.succ f, s =>
    match s.dropWhile jWs with
    | '{' :: r => (parseMembers f true r).map (fun p => (JVal.obj p.1, p.2))
    | '[' :: r => (parseItems f true r).map (fun p => (JVal.arr p.1, p.2))
    | '"' :: r => (parseStrBody f r).map (fun p => (JVal.str p.1, p.2))
    | 't' :: 'r' :: 'u' :: 'e' :: r => some (JVal.bool true, r)
    | 'f' :: 'a' :: 'l' :: 's' :: 'e' :: r => some (JVal.bool false, r)
    | 'n' :: 'u' :: 'l' :: 'l' :: r => some (JVal.null, r)
    | '-' :: r => (parseNumeral r).map (fun p => (JVal.num (-(p.1 : Int)), p.2))
    | c :: r =>
      if c.isDigit then (parseNumeral (c :: r)).map (fun p => (JVal.num (p.1 : Int), p.2))
      else none
    | [] => none

/-- Parse object members after `{` (or after a separating comma when
`first = false`). -/
def parseMembers : Nat → Bool → List Char → Option (List (List Char × JVal) × List Char)
  | 0, _, _ => none
  | Nat.succ f, first, s =>
    match s.dropWhile jWs with
    | '}' :: r => if first then some ([], r) else none
    | '"' :: r =>
      match parseStrBody f r with
      | none => none
      | some (k, r1) =>
        match r1.dropWhile jWs with
        | ':' :: r2 =>
          match parseVal f r2 with
          | none => none
          | some (v, r3) =>
            match r3.dropWhile jWs with
            | ',' :: r4 => (parseMembers f false r4).map (fun p => ((k, v) :: p.1, p.2))
            | '}' :: r4 => some ([(k, v)], r4)
            | _ => none
        | _ => none
    | _ => none

/-- Parse array items after `[` (or after a separating comma when
`first = false`). -/
def parseItems : Nat → Bool → List Char → Option (List JVal × List Char)
  | 0, _, _ => none
  | Nat.succ f, first, s =>
    match s.dropWhile jWs with
    | ']' :: r => if first then some ([], r) else none
    | _ =>
      match parseVal f s with
      | none => none
      | some (v, r1) =>
        match r1.dropWhile jWs with
        | ',' :: r2 => (parseItems f false r2).map (fun p => (v :: p.1, p.2))
        | ']' :: r2 => some ([v], r2)
        | _ => none

/-- Parse the body of a string literal after the opening quote. -/
def parseStrBody : Nat → List Char → Option (List Char × List Char)
  | 0, _ => none
  | Nat.succ f, s =>
    match s with
    | [] => none
    | '"' :: r => some ([], r)
    | '\\' :: e :: r =>
      match escChar e with
      | none => none
      | some c => (parseStrBody f r).map (fun p => (c :: p.1, p.2))
    | c :: r =>
      if c.toNat < 32 then none
      else (parseStrBody f r).map (fun p => (c :: p.1, p.2))

end

/-- `json.loads` on the modelled fragment: parse one value, require only
whitespace after it. -/
def jsonParseL (s : List Char) : Option JVal :=
  match parseVal (4 * s.length + 4) s with
  | some (v, rest) => if rest.dropWhile jWs = [] then some v else none
  | none => none

/-- The fallback `re.search(r'\x7b.*\x7d', s, re.DOTALL)`: the leftmost
match of a greedy any-gap brace pair is the span from the first `\x7b` to
the last `\x7d`, provided the latter is strictly further right. -/
def bracesSpan (s : List Char) : Option (List Char) :=
  match s.findIdx? (fun c => c = '{'), s.reverse.findIdx? (fun c => c = '}') with
  | some i, some jr =>
    let j := s.length - 1 - jr
    if i < j then some ((s.take (j + 1)).drop i) else none
  | _, _ => none

/-- Extraction outcome of the parsing portion of `process_omr_sheet`:
either the parsed payload, or the structured error dict whose
`raw_response` field holds the *current* `response_text`. -/
inductive ExtractResult where
  | ok : JVal → ExtractResult
  | err : List Char → ExtractResult
deriving BEq, Repr

/-- Lines 78-112 of `gemini_service.py`: strip, select a fenced payload,
`json.loads`; on decode failure retry on the brace span of `response_text`
(which the fence branch has reassigned); on second failure return the
structured error carrying `raw_response = response_text`. -/
def processOmrSheetParse (raw : List Char) : ExtractResult :=
  let sel := selectPayload (pyStripL raw)
  match jsonParseL sel with
  | some v => .ok v
  | none =>
    match bracesSpan sel with
    | some b =>
      match jsonParseL b with
      | some v => .ok v
      | none => .err sel
    | none => .err sel

/-! ### Region processors as boundary functions (`gemini_service.py`)

Each processor first tests the module-global `GEMINI_API_KEY` and raises
`ValueError` when it is unset — before and outside its `try` block. The
capability call (PIL decode + `generate_content` + `.text`) is modelled as
one `Except`-valued argument; everything its `try` block catches becomes a
returned error dict.
-/

/-- A value returned or an exception propagated out of a Python function. -/
inductive PyResult (α : Type) where
  | ok : α → PyResult α
  | raised : String → PyResult α
deriving DecidableEq, Repr

/-- The error message of the `ValueError` raised on a missing API key. -/
def apiKeyMissingMsg : String := "GEMINI_API_KEY not found in environment variables"

/-- A region processor's returned dict: the parsed payload, the
`JSONDecodeError` dict (carrying `raw_response` where the function builds
one), or the generic-exception dict. -/
inductive OmrOut where
  | parsed : JVal → OmrOut
  | parseErrDict : List Char → OmrOut
  | excDict : String → OmrOut
deriving BEq, Repr

/-- `process_omr_sheet` (lines 26-121): raises on a missing key; a
capability exception yields the `"Error processing image"` dict; otherwise
the two-tier parse of the response text, whose failure yields the
`"Failed to parse Gemini response"` dict. -/
def processOmrSheetFn (apiKey : Option String) (cap : Except String (List Char)) :
    PyResult OmrOut :=
  match apiKey with
  | none => .raised apiKeyMissingMsg
  | some _ =>
    match cap with
    | .error e => .ok (.excDict e)
    | .ok text =>
      match processOmrSheetParse text with
      | .ok v => .ok (.parsed v)
      | .err raw => .ok (.parseErrDict raw)

/-- `process_omr_from_image_data` (lines 238-266): raises on a missing key;
any exception inside the `try` block — capability or `json.loads` — yields
the `{"responses": {}, "error": str(e)}` dict (this function has no brace
fallback). -/
def processOmrFromImageDataFn (apiKey : Option String) (cap : Except String (List Char)) :
    PyResult OmrOut :=
  match apiKey with
  | none => .raised apiKeyMissingMsg
  | some _ =>
    match cap with
    | .error e => .ok (.excDict e)
    | .ok text =>
      match jsonParseL (selectPayload (pyStripL text)) with
      | some v => .ok (.parsed v)
      | none => .ok (.excDict "json decode error")

/-- `extract_name_from_image` (lines 210-235): raises on a missing key; any
exception inside the `try` block yields the
`{"student_name": None, "roll_number": None, "error": str(e)}` dict. -/
def extractNameFromImageFn (apiKey : Option String) (cap : Except String (List Char)) :
    PyResult OmrOut :=
  match apiKey with
  | none => .raised apiKeyMissingMsg
  | some _ =>
    match cap with
    | .error e => .ok (.excDict e)
    | .ok text =>
      match jsonParseL (selectPayload (pyStripL text)) with
      | some v => .ok (.parsed v)
      | none => .ok (.excDict "json decode error")

/-! ### Lemmas about fence selection -/

theorem isPrefixOf_append_self (xs rest : List Char) : xs.isPrefixOf (xs ++ rest) = true := by
  induction xs with
  | nil => simp [List.isPrefixOf]
  | cons a as ih =>
    rw [List.cons_append,
      show (a :: as).isPrefixOf (a :: (as ++ rest)) = ((a == a) && as.isPrefixOf (as ++ rest))
        from rfl,
      ih]
    simp

theorem firstIdx_cons_ne (c a : Char) (ns t : List Char) (h : a ≠ c) :
    firstIdx (c :: ns) (a :: t) = (firstIdx (c :: ns) t).map (fun i => i + 1) := by
  have hb : (c == a) = false := by simp [Ne.symm h]
  simp only [firstIdx, List.isPrefixOf, hb, Bool.false_and, Bool.false_eq_true, if_false]

theorem firstIdx_append_ne (pre rest : List Char) (c : Char) (ns : List Char)
    (h : ∀ a ∈ pre, a ≠ c) :
    firstIdx (c :: ns) (pre ++ rest) = (firstIdx (c :: ns) rest).map (fun i => i + pre.length) := by
  induction pre with
  | nil => simp
  | cons a pr ih =>
    have ha : a ≠ c := h a (List.mem_cons_self a pr)
    rw [List.cons_append, firstIdx_cons_ne c a ns (pr ++ rest) ha,
      ih (fun b hb => h b (List.mem_cons_of_mem a hb))]
    cases firstIdx (c :: ns) rest with
    | none => simp
    | some v => simp; omega

theorem firstIdx_self (xs rest : List Char) : firstIdx xs (xs ++ rest) = some 0 := by
  cases xs with
  | nil =>
    cases rest with
    | nil => rfl
    | cons b bs => simp [firstIdx, List.isPrefixOf]
  | cons c t =>
    rw [List.cons_append]
    simp only [firstIdx]
    rw [show (c :: t).isPrefixOf (c :: (t ++ rest)) = true from
      isPrefixOf_append_self (c :: t) rest]
    simp

/-- The fence-selection step computes the stripped fence body: when the
stripped response text is commentary (backtick-free), a tagged fence,
a backtick-free body, the closing fence, and a tail, the selected payload
is the stripped body. -/
theorem selectPayload_eq (pre body post : List Char)
    (hpre : ∀ a ∈ pre, a ≠ btick) (hbody : ∀ a ∈ body, a ≠ btick) :
    selectPayload (pre ++ fenceJson ++ body ++ fenceMark ++ post) = pyStripL body := by
  set Q : List Char := body ++ fenceMark ++ post with hQ
  have hfj : firstIdx fenceJson (pre ++ (fenceJson ++ Q)) = some pre.length := by
    have h1 : firstIdx fenceJson (pre ++ (fenceJson ++ Q)) =
        (firstIdx fenceJson (fenceJson ++ Q)).map (fun i => i + pre.length) :=
      firstIdx_append_ne pre (fenceJson ++ Q) btick [btick, btick, 'j', 's', 'o', 'n'] hpre
    rw [h1, firstIdx_self]
    simp
  have htext : pre ++ fenceJson ++ body ++ fenceMark ++ post = pre ++ (fenceJson ++ Q) := by
    simp [hQ, List.append_assoc]
  rw [htext]
  have hhas : hasSub (pre ++ (fenceJson ++ Q)) fenceJson = true := by
    simp [hasSub, hfj]
  have hfind0 : pyFind (pre ++ (fenceJson ++ Q)) fenceJson 0 = (pre.length : Int) := by
    simp [pyFind, hfj]
  have hlenfj : fenceJson.length = 7 := rfl
  have hdrop : (pre ++ (fenceJson ++ Q)).drop (pre.length + 7) = Q := by
    have : pre ++ (fenceJson ++ Q) = (pre ++ fenceJson) ++ Q := by
      simp [List.append_assoc]
    rw [this]
    exact List.drop_left' (by simp [hlenfj])
  have hfm : firstIdx fenceMark Q = some body.length := by
    have h1 : firstIdx fenceMark (body ++ (fenceMark ++ post)) =
        (firstIdx fenceMark (fenceMark ++ post)).map (fun i => i + body.length) :=
      firstIdx_append_ne body (fenceMark ++ post) btick [btick, btick] hbody
    rw [hQ, List.append_assoc, h1, firstIdx_self]
    simp
  have hfind1 : pyFind (pre ++ (fenceJson ++ Q)) fenceMark (pre.length + 7) =
      ((pre.length + 7 + body.length : Nat) : Int) := by
    simp [pyFind, hdrop, hfm]
  have hslice : pySliceNN (pre ++ (fenceJson ++ Q)) (pre.length + 7)
      ((pre.length + 7 + body.length : Nat) : Int) = body := by
    have hlen : (pre ++ (fenceJson ++ Q)).length =
        pre.length + 7 + body.length + 3 + post.length := by
      simp [hQ, hlenfj, fenceMark]
      omega
    have hbi : (if (0 : Int) ≤ ((pre.length + 7 + body.length : Nat) : Int) then
        min (pre ++ (fenceJson ++ Q)).length ((pre.length + 7 + body.length : Nat) : Int).toNat
        else (((pre ++ (fenceJson ++ Q)).length : Int) +
          ((pre.length + 7 + body.length : Nat) : Int)).toNat) =
        pre.length + 7 + body.length := by
      rw [if_pos (by positivity)]
      simp [hlen]
      omega
    simp only [pySliceNN, hbi]
    have htake : (pre ++ (fenceJson ++ Q)).take (pre.length + 7 + body.length) =
        (pre ++ fenceJson) ++ body := by
      have hsplit : pre ++ (fenceJson ++ Q) = ((pre ++ fenceJson) ++ body) ++ (fenceMark ++ post) := by
        simp [hQ, List.append_assoc]
      rw [hsplit]
      exact List.take_left' (by simp [hlenfj]; omega)
    rw [htake]
    exact List.drop_left' (by simp [hlenfj])
  rw [selectPayload]
  rw [if_pos hhas]
  simp only [hfind0]
  have hjs : ((pre.length : Int) + 7).toNat = pre.length + 7 := by omega
  rw [hjs, hfind1, hslice]

/-! ### Counting lemmas for the scoring loops -/

theorem scoreByKey_sum (responses ak : SDict) :
    (scoreByKey responses ak).1 + (scoreByKey responses ak).2 = responses.length := by
  suffices h : ∀ (l : SDict) (init : Nat × Nat),
      ((l.foldl (fun cw qa =>
          if isCorrectAnswer ak qa.1 qa.2 then (cw.1 + 1, cw.2) else (cw.1, cw.2 + 1)) init).1 +
        (l.foldl (fun cw qa =>
          if isCorrectAnswer ak qa.1 qa.2 then (cw.1 + 1, cw.2) else (cw.1, cw.2 + 1)) init).2) =
        init.1 + init.2 + l.length by
    simpa [scoreByKey] using h responses (0, 0)
  intro l
  induction l with
  | nil => intro init; simp
  | cons qa t ih =>
    intro init
    rw [List.foldl_cons]
    cases hc : isCorrectAnswer ak qa.1 qa.2 <;> rw [ih] <;> simp [hc] <;> omega

theorem uploadCounts_sum (responses ak : SDict) :
    (uploadCounts responses ak).1 + (uploadCounts responses ak).2.1 +
      (uploadCounts responses ak).2.2 = responses.length := by
  suffices h : ∀ (l : SDict) (init : Nat × Nat × Nat),
      ((l.foldl (fun acc qa =>
          if qa.2 = "" || pyStripS qa.2 = "" then (acc.1, acc.2.1, acc.2.2 + 1)
          else if trimUpper qa.2 = trimUpper (strOfLookup (ak.lookup qa.1)) then
            (acc.1 + 1, acc.2.1, acc.2.2)
          else (acc.1, acc.2.1 + 1, acc.2.2)) init).1 +
        (l.foldl (fun acc qa =>
          if qa.2 = "" || pyStripS qa.2 = "" then (acc.1, acc.2.1, acc.2.2 + 1)
          else if trimUpper qa.2 = trimUpper (strOfLookup (ak.lookup qa.1)) then
            (acc.1 + 1, acc.2.1, acc.2.2)
          else (acc.1, acc.2.1 + 1, acc.2.2)) init).2.1 +
        (l.foldl (fun acc qa =>
          if qa.2 = "" || pyStripS qa.2 = "" then (acc.1, acc.2.1, acc.2.2 + 1)
          else if trimUpper qa.2 = trimUpper (strOfLookup (ak.lookup qa.1)) then
            (acc.1 + 1, acc.2.1, acc.2.2)
          else (acc.1, acc.2.1 + 1, acc.2.2)) init).2.2) =
        init.1 + init.2.1 + init.2.2 + l.length by
    simpa [uploadCounts] using h responses (0, 0, 0)
  intro l
  induction l with
  | nil => intro init; simp
  | cons qa t ih =>
    intro init
    rw [List.foldl_cons]
    by_cases h1 : (qa.2 = "" || pyStripS qa.2 = "") = true
    · rw [if_pos h1, ih]; simp; omega
    · rw [if_neg h1]
      by_cases h2 : trimUpper qa.2 = trimUpper (strOfLookup (ak.lookup qa.1))
      · rw [if_pos h2, ih]; simp; omega
      · rw [if_neg h2, ih]; simp; omega

/-- `pctString` at a zero total never divides: the `else 0` branch yields
the fixed string. -/
theorem pctString_zero (c : Nat) : pctString c 0 = "0.00%" := by
  simp only [pctString, Nat.lt_irrefl, if_false]
  rfl

/-! ### Error accumulation lemma for the aggregator -/

theorem aggregateCrops_errs (outcomes : List RegionOutcome) :
    (aggregateCrops outcomes).2 = (questionRanges.zip outcomes).filterMap regionErrEntry := by
  suffices h : ∀ (l : List ((Nat × Nat) × RegionOutcome)) (init : SDict × List String),
      (l.foldl (fun acc p =>
        match p.2 with
        | .ok r =>
          match r.err with
          | some m => (acc.1, acc.2 ++ [fmtErr p.1.1 p.1.2 m])
          | none => (dictMergeInto acc.1 r.responses, acc.2)
        | .exc m => (acc.1, acc.2 ++ [fmtErr p.1.1 p.1.2 m])) init).2 =
        init.2 ++ l.filterMap regionErrEntry by
    simpa [aggregateCrops] using h (questionRanges.zip outcomes) ([], [])
  intro l
  induction l with
  | nil => intro init; simp
  | cons p t ih =>
    intro init
    obtain ⟨⟨s, e⟩, o⟩ := p
    rw [List.foldl_cons]
    cases o with
    | exc m =>
      rw [ih]
      simp [regionErrEntry, regionErrMsg]
    | ok r =>
      cases hre : r.err with
      | some m =>
        rw [ih]
        simp [regionErrEntry, regionErrMsg, hre]
      | none =>
        rw [ih]
        simp [regionErrEntry, regionErrMsg, hre]

/-! ### Concrete scenario data -/

/-- Left-brace character, written by code point. -/
def lbrace : Char := Char.ofNat 123

/-- Five region outcomes in which exactly the third (range 21-30) fails. -/
def demoOutcomes : List RegionOutcome :=
  [.ok ⟨[("1", "A"), ("2", "B")], none⟩,
   .ok ⟨[("11", "C")], none⟩,
   .exc "crop damaged",
   .ok ⟨[("31", "D")], none⟩,
   .ok ⟨[("41", "A")], none⟩]

/-- A response text whose tagged fence wraps a clean payload, with commentary
around it. -/
def c9demoRaw : String := "see? \x60\x60\x60json\n\x7b\"1\": \"A\"\x7d\n\x60\x60\x60 done"

/-- A fenced payload whose string value contains a fence sequence: the scan
for the closing fence truncates it. -/
def c9cexRaw : String := "\x60\x60\x60json\n\x7b\"a\": \"\x60\x60\x60 oops\"\x7d\n\x60\x60\x60"

/-- The unwrapped fence content of `c9cexRaw`. -/
def c9cexContent : String := "\x7b\"a\": \"\x60\x60\x60 oops\"\x7d"

/-- A raw response with a parseable brace region in the commentary and a
fence whose body fails strict parsing. -/
def c7cexRaw : String := "\x7b\"a\": 1\x7d \x60\x60\x60json\nnope\n\x60\x60\x60"

/-- A fenced response whose body fails both strict parsing and the brace
fallback. -/
def c7demoRaw : String := "\x60\x60\x60json\nnope\n\x60\x60\x60"

/-! ## The claims -/

/-- C1 (amended): on every scoring path `correct_count + wrong_count` is
bounded by the number of entries in the responses mapping (on the
answer-key paths the two counts sum to exactly that number), and therefore
`correct_count + wrong_count ≤ total_questions` holds whenever the
responses mapping has at most `total_questions` entries — but not
unconditionally (see `c1_counterexample`). -/
theorem c1_correct_wrong_bound (responses ak : SDict) (templateTotal : Nat) :
    ((sheetByKey responses ak).correct_count + (sheetByKey responses ak).wrong_count =
      responses.length) ∧
    (responses.length ≤ keyCard ak →
      (sheetByKey responses ak).correct_count + (sheetByKey responses ak).wrong_count ≤
        (sheetByKey responses ak).total_questions) ∧
    ((sheetUpload responses ak templateTotal).1.correct_count +
      (sheetUpload responses ak templateTotal).1.wrong_count ≤ responses.length) ∧
    (responses.length ≤ templateTotal →
      (sheetUpload responses ak templateTotal).1.correct_count +
        (sheetUpload responses ak templateTotal).1.wrong_count ≤
        (sheetUpload responses ak templateTotal).1.total_questions) := by
  have hk := scoreByKey_sum responses ak
  have hu := uploadCounts_sum responses ak
  refine ⟨hk, fun hle => ?_, ?_, fun hle => ?_⟩
  · simpa [sheetByKey, hk] using hle
  · simp only [sheetUpload]; omega
  · simp only [sheetUpload]; omega

theorem c1_correct_wrong_bound_witness :
    (sheetByKey [("1", "A")] [("1", "A")]).correct_count +
      (sheetByKey [("1", "A")] [("1", "A")]).wrong_count ≤
      (sheetByKey [("1", "A")] [("1", "A")]).total_questions :=
  (c1_correct_wrong_bound [("1", "A")] [("1", "A")] 1).2.1 (by decide)

/-- C1 counterexample: on the answer-key scoring path, a responses mapping
with more entries than the key has questions yields
`correct_count + wrong_count = 2 > 1 = total_questions`. -/
theorem c1_counterexample :
    (sheetByKey [("1", "A"), ("2", "B")] [("1", "A")]).correct_count +
      (sheetByKey [("1", "A"), ("2", "B")] [("1", "A")]).wrong_count = 2 ∧
    (sheetByKey [("1", "A"), ("2", "B")] [("1", "A")]).total_questions = 1 ∧
    ¬((sheetByKey [("1", "A"), ("2", "B")] [("1", "A")]).correct_count +
        (sheetByKey [("1", "A"), ("2", "B")] [("1", "A")]).wrong_count ≤
        (sheetByKey [("1", "A"), ("2", "B")] [("1", "A")]).total_questions) := by
  refine ⟨by decide, by decide, by decide⟩

/-- C2: `main.py` imports `process_omr_question_range` from
`gemini_service`, but that module defines no function of that name; the
multi-region path's region-processing operation is undefined. -/
theorem c2_missing_region_processor :
    "process_omr_question_range" ∈ mainGeminiImports ∧
    "process_omr_question_range" ∉ geminiServiceDefs := by
  decide

/-- C3 (amended): with the API key configured, the region processors never
raise — every capability or extraction failure is returned as an error
dict value; with the key unconfigured they raise `ValueError` before
reaching the capability call, contrary to the claim. -/
theorem c3_no_raise_when_configured (k : String) (cap : Except String (List Char)) :
    (∃ o, processOmrSheetFn (some k) cap = .ok o) ∧
    (∃ o, processOmrFromImageDataFn (some k) cap = .ok o) ∧
    (∃ o, extractNameFromImageFn (some k) cap = .ok o) ∧
    processOmrSheetFn none cap = .raised apiKeyMissingMsg ∧
    processOmrFromImageDataFn none cap = .raised apiKeyMissingMsg ∧
    extractNameFromImageFn none cap = .raised apiKeyMissingMsg := by
  refine ⟨?_, ?_, ?_, rfl, rfl, rfl⟩
  · cases cap with
    | error e => exact ⟨.excDict e, rfl⟩
    | ok text =>
      cases h : processOmrSheetParse text with
      | ok v => exact ⟨.parsed v, by simp [processOmrSheetFn, h]⟩
      | err raw => exact ⟨.parseErrDict raw, by simp [processOmrSheetFn, h]⟩
  · cases cap with
    | error e => exact ⟨.excDict e, rfl⟩
    | ok text =>
      cases h : jsonParseL (selectPayload (pyStripL text)) with
      | some v => exact ⟨.parsed v, by simp [processOmrFromImageDataFn, h]⟩
      | none => exact ⟨.excDict "json decode error", by simp [processOmrFromImageDataFn, h]⟩
  · cases cap with
    | error e => exact ⟨.excDict e, rfl⟩
    | ok text =>
      cases h : jsonParseL (selectPayload (pyStripL text)) with
      | some v => exact ⟨.parsed v, by simp [extractNameFromImageFn, h]⟩
      | none => exact ⟨.excDict "json decode error", by simp [extractNameFromImageFn, h]⟩

theorem c3_no_raise_when_configured_witness :
    ∃ o, processOmrFromImageDataFn (some "key") (Except.ok []) = .ok o :=
  (c3_no_raise_when_configured "key" (Except.ok [])).2.1

/-- C3 counterexample: with the API key unconfigured,
`process_omr_from_image_data` raises `ValueError` past the component
boundary rather than returning a failure value. -/
theorem c3_counterexample :
    processOmrFromImageDataFn none (Except.ok []) = .raised apiKeyMissingMsg := rfl

/-- C4 (amended): the aggregator processes regions independently and never
raises, always returning the partial merge and the error list; a failed
region contributes exactly one entry formatted
`"Questions \x7bstart\x7d-\x7bend\x7d: \x7bmessage\x7d"` (not
`"range ..."` as claimed); in the 5-region scenario with exactly region 3
failing, the merge holds every entry of regions 1, 2, 4, 5 and the error
list is that single formatted entry. -/
theorem c4_aggregator_errors :
    (∀ outcomes : List RegionOutcome,
      (aggregateCrops outcomes).2 = (questionRanges.zip outcomes).filterMap regionErrEntry) ∧
    (aggregateCrops demoOutcomes).1 =
      [("1", "A"), ("2", "B"), ("11", "C"), ("31", "D"), ("41", "A")] ∧
    (aggregateCrops demoOutcomes).2 = ["Questions 21-30: crop damaged"] :=
  ⟨aggregateCrops_errs, by decide, by decide⟩

/-- C4 counterexample: the error entry for the failed range 21-30 is
`"Questions 21-30: ..."`, not the claimed `"range 21-30: ..."`. -/
theorem c4_counterexample :
    (aggregateCrops demoOutcomes).2 = ["Questions 21-30: crop damaged"] ∧
    (aggregateCrops demoOutcomes).2 ≠ ["range 21-30: crop damaged"] := by
  refine ⟨by decide, by decide⟩

/-- C5 (amended): on the answer-key paths the percentage is
`correct_count / total_questions * 100` to two decimals with a `%` sign and
`total_questions` is the key's cardinality, with `"0.00%"` and no division
when the key is empty; on the single-image upload path `total_questions` is
the template's stored field, not the key's cardinality (see
`c5_counterexample`), with the same `"0.00%"` guard. -/
theorem c5_percentage (responses ak : SDict) (templateTotal : Nat) :
    (sheetByKey responses ak).total_questions = keyCard ak ∧
    (sheetByKey responses ak).percentage =
      pctString (scoreByKey responses ak).1 (keyCard ak) ∧
    (keyCard ak = 0 → (sheetByKey responses ak).percentage = "0.00%") ∧
    (sheetUpload responses ak templateTotal).1.total_questions = templateTotal ∧
    (templateTotal = 0 → (sheetUpload responses ak templateTotal).1.percentage = "0.00%") := by
  refine ⟨rfl, rfl, fun h => ?_, rfl, fun h => ?_⟩
  · simp only [sheetByKey, h, pctString_zero]
  · simp only [sheetUpload, h, pctString_zero]

theorem c5_percentage_witness : (sheetUpload [] [] 0).1.percentage = "0.00%" :=
  (c5_percentage [] [] 0).2.2.2.2 rfl

/-- C5 counterexample: a template whose stored `total_questions` is 5 over a
one-question answer key scores a single correct response as `"20.00%"`,
not the `"100.00%"` that the key's cardinality would give. -/
theorem c5_counterexample :
    (sheetUpload [("1", "A")] [("1", "A")] 5).1.percentage = "20.00%" ∧
    pctString (uploadCounts [("1", "A")] [("1", "A")]).1 (keyCard [("1", "A")]) = "100.00%" ∧
    (sheetUpload [("1", "A")] [("1", "A")] 5).1.percentage ≠
      pctString (uploadCounts [("1", "A")] [("1", "A")]).1 (keyCard [("1", "A")]) := by
  refine ⟨by decide, by decide, by decide⟩

/-- C6 (amended): when the question is present in the key, a response is
counted correct iff it is non-empty and its trimmed upper-cased value
equals the trimmed upper-cased expected value; when the question is absent,
the lookup's `None` is rendered `"None"`, so the response is counted
correct iff its trimmed upper-cased value is `"NONE"` — not unconditionally
wrong as claimed (see `c6_counterexample`). -/
theorem c6_comparison_rule (ak : SDict) (q a : String) :
    (∀ e, ak.lookup q = some e →
      isCorrectAnswer ak q a = ((a != "") && (trimUpper a == trimUpper e))) ∧
    (ak.lookup q = none →
      isCorrectAnswer ak q a = ((a != "") && (trimUpper a == "NONE"))) := by
  constructor
  · intro e he
    simp [isCorrectAnswer, strOfLookup, he]
  · intro hn
    rw [isCorrectAnswer, hn]
    rw [show trimUpper (strOfLookup none) = "NONE" from by decide]

theorem c6_comparison_rule_witness :
    isCorrectAnswer [("1", "A")] "1" " a " =
      ((" a " != "") && (trimUpper " a " == trimUpper "A")) :=
  (c6_comparison_rule [("1", "A")] "1" " a ").1 "A" (by decide)

/-- C6 counterexample: the response value `"none"` on question 2, absent
from the answer key, is counted correct (it matches the rendering of the
failed lookup), where the claim requires it to be counted wrong. -/
theorem c6_counterexample :
    (List.lookup "2" [("1", "A")] = (none : Option String)) ∧
    (sheetByKey [("2", "none")] [("1", "A")]).correct_count = 1 ∧
    (sheetByKey [("2", "none")] [("1", "A")]).wrong_count = 0 := by
  refine ⟨by decide, by decide, by decide⟩

/-- C8 (amended): per field, the resolved value is the whitespace-trimmed
explicit value when the explicit value is non-empty after trimming, else
the trimmed extracted value under the same test, else absent — and the
resolved field is never the empty string. (The claim's untrimmed "is the
explicit caller-supplied value" fails; see `c8_counterexample`.) -/
theorem c8_resolver (e x : Option String) :
    resolveField e x = resolveFieldSpec e x ∧ resolveField e x ≠ some "" := by
  have hstrip : ∀ s : String, pyStripS s ≠ "" → s ≠ "" := by
    intro s h hs
    exact h (by rw [hs]; rfl)
  constructor
  · cases e with
    | none =>
      cases x with
      | none => rfl
      | some t =>
        by_cases ht : pyStripS t = ""
        · simp [resolveField, resolveFieldSpec, pickNonEmpty, nonEmptyAfterTrim, ht]
        · simp [resolveField, resolveFieldSpec, pickNonEmpty, nonEmptyAfterTrim, ht,
            hstrip t ht]
    | some s =>
      by_cases hs : pyStripS s = ""
      · cases x with
        | none => simp [resolveField, resolveFieldSpec, pickNonEmpty, nonEmptyAfterTrim, hs]
        | some t =>
          by_cases ht : pyStripS t = ""
          · simp [resolveField, resolveFieldSpec, pickNonEmpty, nonEmptyAfterTrim, hs, ht]
          · simp [resolveField, resolveFieldSpec, pickNonEmpty, nonEmptyAfterTrim, hs, ht,
              hstrip t ht]
      · simp [resolveField, resolveFieldSpec, pickNonEmpty, nonEmptyAfterTrim, hs,
          hstrip s hs]
  · have hne : ∀ o : Option String, pickNonEmpty o ≠ some "" := by
      intro o
      cases o with
      | none => exact fun hc => Option.noConfusion hc
      | some s =>
        by_cases h : pyStripS s = ""
        · simp [pickNonEmpty, h]
        · simp [pickNonEmpty, h, hstrip s h]
    rw [resolveField]
    cases hpe : pickNonEmpty e with
    | some v =>
      intro hc
      simp only [Option.some.injEq] at hc
      exact hne e (by rw [hpe, hc])
    | none =>
      cases hpx : pickNonEmpty x with
      | some v =>
        intro hc
        simp only [Option.some.injEq] at hc
        exact hne x (by rw [hpx, hc])
      | none => exact fun hc => Option.noConfusion hc

theorem c8_resolver_witness :
    resolveField (some "") (some "Bob") = resolveFieldSpec (some "") (some "Bob") :=
  (c8_resolver (some "") (some "Bob")).1

/-- C8 counterexample: an explicit value carrying surrounding whitespace is
stored trimmed — the resolved field is `"Alice"`, not the caller-supplied
`" Alice "` the claim names. -/
theorem c8_counterexample :
    resolveField (some " Alice ") (some "Bob") = some "Alice" ∧
    (some "Alice" : Option String) ≠ some " Alice " := by
  refine ⟨by decide, by decide⟩

/-- C10: for every image size and all rational crop parameters, every
coordinate of the `_crop_bytes` pixel box is clamped into the image bounds:
`0 ≤ left, right ≤ width` and `0 ≤ top, bottom ≤ height`. -/
theorem c10_crop_clamped (width height : Nat) (x y w h : Rat) :
    0 ≤ (cropBox width height x y w h).1 ∧
    (cropBox width height x y w h).1 ≤ (width : Int) ∧
    0 ≤ (cropBox width height x y w h).2.1 ∧
    (cropBox width height x y w h).2.1 ≤ (height : Int) ∧
    0 ≤ (cropBox width height x y w h).2.2.1 ∧
    (cropBox width height x y w h).2.2.1 ≤ (width : Int) ∧
    0 ≤ (cropBox width height x y w h).2.2.2 ∧
    (cropBox width height x y w h).2.2.2 ≤ (height : Int) :=
  ⟨le_max_left 0 _, max_le (Int.natCast_nonneg width) (min_le_left _ _),
   le_max_left 0 _, max_le (Int.natCast_nonneg height) (min_le_left _ _),
   le_max_left 0 _, max_le (Int.natCast_nonneg width) (min_le_left _ _),
   le_max_left 0 _, max_le (Int.natCast_nonneg height) (min_le_left _ _)⟩

/-- C7 (amended): when strict parsing of the fence-selected substring
fails, the fallback scans that same fence-selected substring (which the
code has assigned back to `response_text`) — not the original raw text —
for the first-to-last brace region, and the error result after a second
failure carries the fence-selected substring. (The claimed scan of the
original raw text is refuted by `c7_counterexample`.) -/
theorem c7_fallback_scans_selection (raw pre body post : List Char)
    (hpre : ∀ a ∈ pre, a ≠ btick) (hbody : ∀ a ∈ body, a ≠ btick)
    (hsplit : pyStripL raw = pre ++ fenceJson ++ body ++ fenceMark ++ post)
    (hfail : jsonParseL (pyStripL body) = none) :
    processOmrSheetParse raw =
      (match (bracesSpan (pyStripL body)).bind jsonParseL with
       | some v => ExtractResult.ok v
       | none => ExtractResult.err (pyStripL body)) := by
  rw [processOmrSheetParse, hsplit, selectPayload_eq pre body post hpre hbody, hfail]
  cases hb : bracesSpan (pyStripL body) with
  | none => simp
  | some b => cases jsonParseL b <;> simp

theorem c7_fallback_scans_selection_witness :
    processOmrSheetParse c7demoRaw.data = ExtractResult.err "nope".data := by
  have h := c7_fallback_scans_selection c7demoRaw.data [] "\nnope\n".data []
    (by decide) (by decide) (by rfl) (by rfl)
  exact h

/-- C7 counterexample: the original raw text holds a parseable brace region
before the fence, so a fallback scanning the original would return its
payload; the code instead scans the fence-selected substring `"nope"`,
finds no braces, and returns the error carrying `"nope"`. -/
theorem c7_counterexample :
    processOmrSheetParse c7cexRaw.data = ExtractResult.err "nope".data ∧
    (bracesSpan (pyStripL c7cexRaw.data)).bind jsonParseL =
      some (JVal.obj [(['a'], JVal.num 1)]) ∧
    ExtractResult.err "nope".data ≠ ExtractResult.ok (JVal.obj [(['a'], JVal.num 1)]) :=
  ⟨rfl, rfl, fun h => ExtractResult.noConfusion h⟩

/-- C9 (amended): for payload text wrapped in a tagged fenced block whose
commentary and fence content are free of backtick characters,
`extract_payload` returns exactly the mapping obtained by parsing the
stripped fence content directly. (The claim's inclusion of payloads whose
string values contain backtick sequences fails: the closing-fence scan
truncates them; see `c9_counterexample`.) -/
theorem c9_fenced_roundtrip (raw pre body post : List Char) (m : JVal)
    (hpre : ∀ a ∈ pre, a ≠ btick) (hbody : ∀ a ∈ body, a ≠ btick)
    (hsplit : pyStripL raw = pre ++ fenceJson ++ body ++ fenceMark ++ post)
    (hparse : jsonParseL (pyStripL body) = some m) :
    processOmrSheetParse raw = ExtractResult.ok m := by
  rw [processOmrSheetParse, hsplit, selectPayload_eq pre body post hpre hbody, hparse]

theorem c9_fenced_roundtrip_witness :
    processOmrSheetParse c9demoRaw.data = ExtractResult.ok (JVal.obj [(['1'], JVal.str ['A'])]) :=
  c9_fenced_roundtrip c9demoRaw.data "see? ".data "\n\x7b\"1\": \"A\"\x7d\n".data " done".data
    (JVal.obj [(['1'], JVal.str ['A'])]) (by decide) (by decide) (by rfl) (by rfl)

/-- C9 counterexample: the fence content parses directly to an object whose
string value contains a fence sequence, but `extract_payload` cuts the
selection at that inner fence and returns a parse error on the truncated
fragment instead of the mapping. -/
theorem c9_counterexample :
    jsonParseL c9cexContent.data =
      some (JVal.obj [(['a'], JVal.str [btick, btick, btick, ' ', 'o', 'o', 'p', 's'])]) ∧
    processOmrSheetParse c9cexRaw.data =
      ExtractResult.err [lbrace, '"', 'a', '"', ':', ' ', '"'] ∧
    ExtractResult.err [lbrace, '"', 'a', '"', ':', ' ', '"'] ≠
      ExtractResult.ok
        (JVal.obj [(['a'], JVal.str [btick, btick, btick, ' ', 'o', 'o', 'p', 's'])]) :=
  ⟨rfl, rfl, fun h => ExtractResult.noConfusion h⟩

end OMRSpec
